import Mathlib

/-!
Verification development for the Synquer SDK event-delivery pipeline.

The embedding below is a shallow model of the TypeScript sources:
  * src/types.ts   — event and option shapes,
  * src/job.ts     — the Job accumulator and its completion state machine,
  * src/client.ts  — the Synquer dispatcher: per-job and batch send paths,
                     flush with single-flight guard and failure requeue,
                     shutdown, and the retrying transport loop.

Wall-clock reads (Date.now) are modelled as explicit Nat parameters.
HTTP responses are modelled by the data the code inspects: the status,
and the optional error field of the parsed JSON body; the fetch `ok`
flag is derived as status in [200, 300) as in the Fetch standard.
Fallible code (the transport throwing, try/catch in flush and in the
per-job send path) is modelled with Except.
-/

/-- JSON-representable payload values, as stored in an event `data` record. -/
inductive JVal where
  | str (s : String)
  | num (n : Int)
  | boolean (b : Bool)
  | obj (fields : List (String × JVal))

/-- The six event kinds of `IngestEvent.type` (dotted names `job.*` in the wire format). -/
inductive EventType where
  | started
  | event
  | done
  | failed
  | skipped
  | review
deriving DecidableEq

/-- Mirror of `IngestEvent` from src/types.ts. -/
structure IngestEvent where
  jobId : String
  externalId : Option String
  type : EventType
  timestamp : Nat
  data : List (String × JVal)

/-- Mirror of the entity descriptor in `JobOptions` (src/types.ts). -/
structure EntityRef where
  type : String
  id : String
  ref : Option String

/-- Mirror of `JobOptions` from src/types.ts. -/
structure JobOptions where
  type : String
  entity : Option EntityRef
  externalId : Option String
  metadata : Option (List (String × JVal))

/-- The dispatch mode of the client. -/
inductive Mode where
  | perJob
  | batch
deriving DecidableEq

/-- Mirror of the resolved `SynquerOptions` held by the client (src/client.ts
constructor). The api key and base url do not influence the control flow
modelled here beyond being attached to requests; `onErrorSet` records whether
the optional failure-observer callback was configured. -/
structure SynquerOptions where
  apiKey : String
  baseUrl : String
  mode : Mode
  batchInterval : Nat
  batchSize : Nat
  maxRetries : Nat
  disabled : Bool
  onErrorSet : Bool

/-- One HTTP exchange outcome as the code observes it: either the fetch call
throws (network error or the 10s abort), or a response arrives carrying a
status and possibly an `error` field in its JSON body. -/
inductive HttpResp where
  | netError (msg : String)
  | resp (status : Nat) (errorField : Option String)

/-- A transport assigns to each attempt index the outcome of that attempt. -/
def Transport := Nat → HttpResp

/-- The error message built for a non-retryable 400/401 response
(src/client.ts line 145): the body error field is surfaced when present. -/
def terminalErrorMsg (status : Nat) (errorField : Option String) : String :=
  "Synquer API error " ++ toString status ++ ": " ++ errorField.getD "Unknown error"

/-- The error message built for a retryable non-success status (src/client.ts line 150). -/
def retryableErrorMsg (status : Nat) : String :=
  "Synquer API error " ++ toString status

/-- The retry loop of `Synquer._send` (src/client.ts lines 121-160).
`fuel` is the number of loop iterations still permitted (`maxRetries + 1`
at entry), `attempt` the index of the next attempt, `lastErr` the
`lastError` variable. Returns the number of fetch attempts made and
either success or the thrown `lastError`. Backoff delays are not
observable in this model and are omitted. -/
def sendGo (transport : Transport) : Nat → Nat → Option String → Nat × Except String Unit
  | 0, attempt, lastErr => (attempt, Except.error (lastErr.getD ""))
  | fuel + 1, attempt, _ =>
    match transport attempt with
    | HttpResp.netError msg => sendGo transport fuel (attempt + 1) (some msg)
    | HttpResp.resp status errorField =>
      if (200 ≤ status ∧ status < 300) ∨ status = 207 then
        (attempt + 1, Except.ok ())
      else if status = 400 ∨ status = 401 then
        (attempt + 1, Except.error (terminalErrorMsg status errorField))
      else
        sendGo transport fuel (attempt + 1) (some (retryableErrorMsg status))

instance exceptStringUnitDecEq : DecidableEq (Except String Unit) := fun
  | Except.ok (), Except.ok () => isTrue rfl
  | Except.ok (), Except.error _ => isFalse (fun h => Except.noConfusion h)
  | Except.error _, Except.ok () => isFalse (fun h => Except.noConfusion h)
  | Except.error a, Except.error b =>
    if h : a = b then isTrue (by rw [h]) else isFalse (fun hh => h (by injection hh))

/-- Observable outcome of one `Synquer._send` call: how many fetch attempts
were made, which messages were passed to the `onError` observer, and whether
the call returned normally or threw. -/
structure SendTrace where
  attempts : Nat
  observerCalls : List String
  result : Except String Unit
deriving DecidableEq

namespace Synquer

/-- Model of `Synquer._send` (src/client.ts lines 118-168): no-op when the
client is disabled or the event list is empty; otherwise up to
`maxRetries + 1` attempts; on exhaustion or terminal break the observer is
invoked with the last error (when configured) and the error is thrown. -/
def send (opts : SynquerOptions) (transport : Transport) (events : List IngestEvent) : SendTrace :=
  if opts.disabled ∨ events.isEmpty then ⟨0, [], Except.ok ()⟩
  else
    let r := sendGo transport (opts.maxRetries + 1) 0 none
    match r.2 with
    | Except.ok _ => ⟨r.1, [], Except.ok ()⟩
    | Except.error e => ⟨r.1, if opts.onErrorSet then [e] else [], Except.error e⟩

end Synquer

/-! ## Job (src/job.ts) -/

/-- Insert or overwrite one key of a record, keeping the original key
position on overwrite, as JavaScript object spread does. -/
def setKey : List (String × JVal) → String → JVal → List (String × JVal)
  | [], k, v => [(k, v)]
  | (k₁, v₁) :: rest, k, v =>
    if k₁ = k then (k, v) :: rest else (k₁, v₁) :: setKey rest k v

/-- Record merge `\x7b...a, ...b\x7d`: keys of `b` override or extend `a`. -/
def mergeRecord (a b : List (String × JVal)) : List (String × JVal) :=
  b.foldl (fun acc kv => setKey acc kv.1 kv.2) a

/-- The `started` event pushed synchronously by the Job constructor
(src/job.ts lines 25-38). Entity fields and metadata are included only when
truthy / non-empty, mirroring the conditional spreads in the source. -/
def startedEvent (id : String) (o : JobOptions) (now : Nat) : IngestEvent :=
  { jobId := id
    externalId := o.externalId
    type := EventType.started
    timestamp := now
    data :=
      [("jobType", JVal.str o.type)]
      ++ (match o.entity with
          | some e =>
            (if e.type ≠ "" then [("entityType", JVal.str e.type)] else [])
            ++ (if e.id ≠ "" then [("entityId", JVal.str e.id)] else [])
            ++ (match e.ref with
                | some r => if r ≠ "" then [("entityRef", JVal.str r)] else []
                | none => [])
          | none => [])
      ++ (match o.metadata with
          | some m => if m.length ≠ 0 then [("metadata", JVal.obj m)] else []
          | none => []) }

/-- Mutable state of a Job: its id, accumulated events, completion flag. -/
structure JobState where
  id : String
  events : List IngestEvent
  completed : Bool

/-- The argument of `Job.event`: either a plain message string or an
options object with optional message and data. -/
inductive EventArg where
  | msg (s : String)
  | opts (message : Option String) (data : List (String × JVal))

/-- Normalisation of the overloaded argument (src/job.ts lines 46-48). -/
def EventArg.toOpts : EventArg → Option String × List (String × JVal)
  | EventArg.msg s => (some s, [])
  | EventArg.opts m d => (m, d)

/-- The error argument of `Job.failed` after the typeof analysis the source
performs: a structured Error (message and optional stack), a string, or any
other value already rendered by String(...). -/
inductive ErrInput where
  | error (message : String) (stack : Option String)
  | str (s : String)
  | other (shown : String)

/-- Error normalisation in `Job.failed` (src/job.ts lines 90-100). A missing
stack is omitted from the serialized payload. -/
def errorDataOf : ErrInput → List (String × JVal)
  | ErrInput.error m st =>
    [("message", JVal.str m)]
    ++ (match st with | some s => [("stack", JVal.str s)] | none => [])
  | ErrInput.str s => [("message", JVal.str s)]
  | ErrInput.other s => [("message", JVal.str s)]

namespace Job

/-- Job construction (src/job.ts constructor): starts open, with the started
event already appended. The send callback is supplied by the dispatcher and
modelled separately. -/
def mk (id : String) (o : JobOptions) (now : Nat) : JobState :=
  { id := id, events := [startedEvent id o now], completed := false }

/-- `Job.event` (src/job.ts lines 43-61): no-op once completed, otherwise
appends a progress event whose payload merges the message (when truthy)
with the explicit data record. -/
def event (j : JobState) (arg : EventArg) (now : Nat) : JobState :=
  if j.completed then j
  else
    let (message, data) := arg.toOpts
    let ev : IngestEvent :=
      { jobId := j.id
        externalId := none
        type := EventType.event
        timestamp := now
        data := mergeRecord
          (match message with
           | some m => if m ≠ "" then [("message", JVal.str m)] else []
           | none => [])
          data }
    { j with events := j.events ++ [ev] }

/-- The start timestamp used for durationMs: the first event when present,
defensively the current clock otherwise (src/job.ts `this._events[0]?.timestamp ?? Date.now()`). -/
def startTs (j : JobState) (now : Nat) : Nat :=
  match j.events.head? with
  | some e => e.timestamp
  | none => now

/-- `Job.done` (src/job.ts lines 66-83): no-op when completed; otherwise
marks completed, appends the terminal done event, and hands the full
accumulated sequence to the send callback (returned here as `some events`). -/
def done (j : JobState) (result : Option JVal) (now : Nat) :
    JobState × Option (List IngestEvent) :=
  if j.completed then (j, none)
  else
    let ev : IngestEvent :=
      { jobId := j.id
        externalId := none
        type := EventType.done
        timestamp := now
        data :=
          (match result with | some r => [("result", r)] | none => [])
          ++ [("durationMs", JVal.num ((now : Int) - (startTs j now : Int)))] }
    let j₁ := { j with completed := true, events := j.events ++ [ev] }
    (j₁, some j₁.events)

/-- `Job.failed` (src/job.ts lines 88-115). -/
def failed (j : JobState) (err : ErrInput) (now : Nat) :
    JobState × Option (List IngestEvent) :=
  if j.completed then (j, none)
  else
    let ev : IngestEvent :=
      { jobId := j.id
        externalId := none
        type := EventType.failed
        timestamp := now
        data :=
          [("error", JVal.obj (errorDataOf err)),
           ("durationMs", JVal.num ((now : Int) - (startTs j now : Int)))] }
    let j₁ := { j with completed := true, events := j.events ++ [ev] }
    (j₁, some j₁.events)

/-- `Job.skip` (src/job.ts lines 120-131). -/
def skip (j : JobState) (reason : String) (now : Nat) :
    JobState × Option (List IngestEvent) :=
  if j.completed then (j, none)
  else
    let ev : IngestEvent :=
      { jobId := j.id
        externalId := none
        type := EventType.skipped
        timestamp := now
        data := [("message", JVal.str reason)] }
    let j₁ := { j with completed := true, events := j.events ++ [ev] }
    (j₁, some j₁.events)

/-- `Job.review` (src/job.ts lines 136-147). -/
def review (j : JobState) (reason : String) (now : Nat) :
    JobState × Option (List IngestEvent) :=
  if j.completed then (j, none)
  else
    let ev : IngestEvent :=
      { jobId := j.id
        externalId := none
        type := EventType.review
        timestamp := now
        data := [("message", JVal.str reason)] }
    let j₁ := { j with completed := true, events := j.events ++ [ev] }
    (j₁, some j₁.events)

end Job

/-- One call on a Job, with the wall-clock value observed during the call. -/
inductive JobOp where
  | logEvent (arg : EventArg) (now : Nat)
  | done (result : Option JVal) (now : Nat)
  | failed (err : ErrInput) (now : Nat)
  | skip (reason : String) (now : Nat)
  | review (reason : String) (now : Nat)

/-- The clock value observed by an operation. -/
def JobOp.now : JobOp → Nat
  | JobOp.logEvent _ n => n
  | JobOp.done _ n => n
  | JobOp.failed _ n => n
  | JobOp.skip _ n => n
  | JobOp.review _ n => n

/-- Apply one call to a Job; the second component is the event list passed
to the send callback, when the call invoked it. -/
def runOp (j : JobState) : JobOp → JobState × Option (List IngestEvent)
  | JobOp.logEvent arg now => (Job.event j arg now, none)
  | JobOp.done r now => Job.done j r now
  | JobOp.failed e now => Job.failed j e now
  | JobOp.skip r now => Job.skip j r now
  | JobOp.review r now => Job.review j r now

/-- Apply a sequence of calls, accumulating every send-callback invocation
in order. -/
def runOps : JobState → List JobOp → JobState × List (List IngestEvent)
  | j, [] => (j, [])
  | j, op :: rest =>
    let s := runOp j op
    let r := runOps s.1 rest
    (r.1, (match s.2 with | some evs => [evs] | none => []) ++ r.2)

/-- The wall clock is monotone: each operation observes a time at least the
previous observation (and at least the construction time). -/
def nowsMono : Nat → List JobOp → Bool
  | _, [] => true
  | t, op :: rest => decide (t ≤ op.now) && nowsMono op.now rest

/-- Number of terminal events in a list. -/
def countTerm (l : List IngestEvent) : Nat :=
  l.countP (fun e =>
    e.type = EventType.done ∨ e.type = EventType.failed
      ∨ e.type = EventType.skipped ∨ e.type = EventType.review)

/-! ## Dispatcher (src/client.ts) -/

/-- Mutable state of a Synquer client instance. -/
structure SynquerState where
  buffer : List IngestEvent
  flushing : Bool
  flushTimerActive : Bool
  shutdownCalled : Bool

namespace Synquer

/-- `Synquer._ensureFlushTimer` (src/client.ts lines 173-187): arms the
periodic flush timer unless one is already armed or shutdown was called. -/
def ensureFlushTimer (st : SynquerState) : SynquerState :=
  if st.flushTimerActive ∨ st.shutdownCalled then st
  else { st with flushTimerActive := true }

/-- `Synquer.flush` (src/client.ts lines 76-90). Early return when the
buffer is empty or a flush is in flight; otherwise the guard is set, the
whole buffer is detached (splice), and the detached batch is sent. `during`
is the sequence of events appended to the buffer by concurrent job
completions while the send was awaited. On send failure the catch block
unshifts the detached batch back in front of those appends; the finally
block clears the guard on both paths. The value returned is the state
together with the delivered batch (empty when nothing was delivered) and
the number of transport attempts made; the Except layer records that flush
itself could in principle propagate an exception — the theorems show it
never does. -/
def flush (opts : SynquerOptions) (transport : Transport) (during : List IngestEvent)
    (st : SynquerState) : Except String (SynquerState × List IngestEvent × Nat) :=
  if st.buffer.isEmpty ∨ st.flushing then Except.ok (st, [], 0)
  else
    let events := st.buffer
    let t := send opts transport events
    match t.result with
    | Except.ok _ =>
      Except.ok ({ st with buffer := during, flushing := false }, events, t.attempts)
    | Except.error _ =>
      Except.ok ({ st with buffer := events ++ during, flushing := false }, [], t.attempts)

/-- The per-job branch of the send callback built in `Synquer.job`
(src/client.ts lines 49-56): `_send` is awaited inside a try block whose
catch swallows everything, so the callback never throws; the observer
invocations of `_send` are recorded. -/
def perJobSendFn (opts : SynquerOptions) (transport : Transport)
    (events : List IngestEvent) : List String × Except String Unit :=
  let t := send opts transport events
  match t.result with
  | Except.ok _ => (t.observerCalls, Except.ok ())
  | Except.error _ => (t.observerCalls, Except.ok ())

/-- The batch branch of the send callback built in `Synquer.job`
(src/client.ts lines 57-66): push the events onto the global buffer, ensure
the flush timer is armed, and when the buffer has reached the batch size
await an immediate flush. -/
def batchSendFn (opts : SynquerOptions) (transport : Transport) (during : List IngestEvent)
    (st : SynquerState) (events : List IngestEvent) :
    Except String (SynquerState × List IngestEvent × Nat) :=
  let st₁ := ensureFlushTimer { st with buffer := st.buffer ++ events }
  if opts.batchSize ≤ st₁.buffer.length then flush opts transport during st₁
  else Except.ok (st₁, [], 0)

/-- `Synquer.shutdown` (src/client.ts lines 95-108): no-op when already
called; otherwise marks shutdown, cancels the periodic timer, and performs
one final flush when the buffer is non-empty. -/
def shutdown (opts : SynquerOptions) (transport : Transport) (during : List IngestEvent)
    (st : SynquerState) : Except String (SynquerState × List IngestEvent × Nat) :=
  if st.shutdownCalled then Except.ok (st, [], 0)
  else
    let st₁ := { st with shutdownCalled := true, flushTimerActive := false }
    if 0 < st₁.buffer.length then flush opts transport during st₁
    else Except.ok (st₁, [], 0)

end Synquer

/-- A terminal `done` call in per-job mode, end to end: the Job state
machine runs first; when it invokes the send callback, the per-job callback
delivers and swallows failure. Returns the new job state, the observer
invocations, and the outcome the host awaits. -/
def perJobDone (opts : SynquerOptions) (transport : Transport) (j : JobState)
    (result : Option JVal) (now : Nat) : JobState × List String × Except String Unit :=
  let s := Job.done j result now
  match s.2 with
  | some evs =>
    let r := Synquer.perJobSendFn opts transport evs
    (s.1, r.1, r.2)
  | none => (s.1, [], Except.ok ())

/-- A terminal `done` call in batch mode, end to end: the Job state machine
runs first; when it invokes the send callback, the batch callback buffers
and possibly flushes. -/
def batchDone (opts : SynquerOptions) (transport : Transport) (during : List IngestEvent)
    (st : SynquerState) (j : JobState) (result : Option JVal) (now : Nat) :
    JobState × Except String (SynquerState × List IngestEvent × Nat) :=
  let s := Job.done j result now
  match s.2 with
  | some evs => (s.1, Synquer.batchSendFn opts transport during st evs)
  | none => (s.1, Except.ok (st, [], 0))

/-! ## Classification helpers and concrete instances used in the theorems -/

/-- A response outcome the retry loop classifies as retryable: a thrown
fetch error, or any status that is neither a success (2xx or 207) nor a
terminal 400/401. -/
def retryableResp : HttpResp → Bool
  | HttpResp.netError _ => true
  | HttpResp.resp s _ =>
    if (200 ≤ s ∧ s < 300) ∨ s = 207 then false
    else if s = 400 ∨ s = 401 then false
    else true

/-- The `lastError` message recorded for a retryable attempt outcome. -/
def lastAttemptMsg : HttpResp → String
  | HttpResp.netError m => m
  | HttpResp.resp s _ => retryableErrorMsg s

/-- Timestamp of the last event of a list (0 for the empty list). -/
def lastTs (l : List IngestEvent) : Nat :=
  match l.getLast? with
  | some e => e.timestamp
  | none => 0

/-- The wall-clock value after a sequence of job operations has run. -/
def clockEnd : Nat → List JobOp → Nat
  | t, [] => t
  | _, op :: rest => clockEnd op.now rest

/-- Concrete client options used in witness instances: batch mode with the
default batch size, interval, and retry count, observer configured. -/
def opts0 : SynquerOptions :=
  { apiKey := "sk_dev_test", baseUrl := "http://localhost:3001", mode := Mode.batch
    batchInterval := 2000, batchSize := 100, maxRetries := 3
    disabled := false, onErrorSet := true }

/-- Concrete options with batch size 3, for the auto-flush threshold example. -/
def opts3 : SynquerOptions :=
  { opts0 with batchSize := 3 }

/-- Concrete job options used in witness instances. -/
def jobOpts0 : JobOptions :=
  { type := "order_sync", entity := none, externalId := none, metadata := none }

/-- Concrete events used in witness instances. -/
def ev0 : IngestEvent :=
  { jobId := "jobA", externalId := none, type := EventType.started, timestamp := 100, data := [] }

def ev1 : IngestEvent :=
  { jobId := "jobA", externalId := none, type := EventType.done, timestamp := 105, data := [] }

def ev2 : IngestEvent :=
  { jobId := "jobB", externalId := none, type := EventType.started, timestamp := 110, data := [] }

def ev3 : IngestEvent :=
  { jobId := "jobB", externalId := none, type := EventType.done, timestamp := 115, data := [] }

/-- A transport answering 400 with an error body on every attempt. -/
def tr400 : Transport := fun _ => HttpResp.resp 400 (some "bad request")

/-- A transport answering 500 on every attempt. -/
def tr500 : Transport := fun _ => HttpResp.resp 500 none

/-- A transport answering 200 on every attempt. -/
def trOK : Transport := fun _ => HttpResp.resp 200 none

/-- A client state with one buffered event, idle, timer armed. -/
def st0 : SynquerState :=
  { buffer := [ev0], flushing := false, flushTimerActive := true, shutdownCalled := false }

/-- A fresh client state: empty buffer, idle, no timer. -/
def stEmpty : SynquerState :=
  { buffer := [], flushing := false, flushTimerActive := false, shutdownCalled := false }

/-- A freshly created open job used in witness instances. -/
def jOpen : JobState := Job.mk "jobA" jobOpts0 3

/-! ## Transport lemmas -/

theorem retryableResp_resp_iff {s : Nat} {ef : Option String}
    (h : retryableResp (HttpResp.resp s ef) = true) :
    ¬((200 ≤ s ∧ s < 300) ∨ s = 207) ∧ ¬(s = 400 ∨ s = 401) := by
  by_cases h1 : (200 ≤ s ∧ s < 300) ∨ s = 207
  · simp [retryableResp, h1] at h
  · by_cases h2 : s = 400 ∨ s = 401
    · simp [retryableResp, h1, h2] at h
    · exact ⟨h1, h2⟩

theorem sendGo_succ (tr : Transport) (fuel attempt : Nat) (le : Option String) :
    sendGo tr (fuel + 1) attempt le =
      match tr attempt with
      | HttpResp.netError msg => sendGo tr fuel (attempt + 1) (some msg)
      | HttpResp.resp status errorField =>
        if (200 ≤ status ∧ status < 300) ∨ status = 207 then
          (attempt + 1, Except.ok ())
        else if status = 400 ∨ status = 401 then
          (attempt + 1, Except.error (terminalErrorMsg status errorField))
        else
          sendGo tr fuel (attempt + 1) (some (retryableErrorMsg status)) := rfl

theorem sendGo_retry_all (tr : Transport) (h : ∀ i, retryableResp (tr i) = true) :
    ∀ fuel attempt le, sendGo tr (fuel + 1) attempt le
      = (attempt + fuel + 1, Except.error (lastAttemptMsg (tr (attempt + fuel)))) := by
  intro fuel
  induction fuel with
  | zero =>
    intro attempt le
    have hr := h attempt
    cases htr : tr attempt with
    | netError m =>
      simp [sendGo, htr, lastAttemptMsg]
    | resp s ef =>
      rw [htr] at hr
      obtain ⟨h1, h2⟩ := retryableResp_resp_iff hr
      simp [sendGo, htr, h1, h2, lastAttemptMsg]
  | succ fuel ih =>
    intro attempt le
    cases htr : tr attempt with
    | netError m =>
      have unf : sendGo tr (fuel + 1 + 1) attempt le
          = sendGo tr (fuel + 1) (attempt + 1) (some m) := by
        conv_lhs => rw [sendGo_succ]
        simp [htr]
      have harith : attempt + 1 + fuel = attempt + (fuel + 1) := by omega
      rw [unf, ih (attempt + 1) (some m), harith]
    | resp s ef =>
      obtain ⟨h1, h2⟩ := retryableResp_resp_iff (htr ▸ h attempt)
      have unf : sendGo tr (fuel + 1 + 1) attempt le
          = sendGo tr (fuel + 1) (attempt + 1) (some (retryableErrorMsg s)) := by
        conv_lhs => rw [sendGo_succ]
        simp [htr, h1, h2]
      have harith : attempt + 1 + fuel = attempt + (fuel + 1) := by omega
      rw [unf, ih (attempt + 1) (some (retryableErrorMsg s)), harith]

/-- CLAIM C3: with maxRetries = N and a transport that is retryable on every
attempt, one send call on a non-empty event list of an enabled client makes
exactly N + 1 attempts and then reports the failure observed on the last
attempt (thrown, and passed to the observer when one is configured). -/
theorem send_exhausts_all_retries (opts : SynquerOptions) (tr : Transport)
    (events : List IngestEvent)
    (hd : opts.disabled = false) (hne : events ≠ [])
    (h : ∀ i, retryableResp (tr i) = true) :
    (Synquer.send opts tr events).attempts = opts.maxRetries + 1
    ∧ (Synquer.send opts tr events).result
        = Except.error (lastAttemptMsg (tr opts.maxRetries))
    ∧ (opts.onErrorSet = true →
        (Synquer.send opts tr events).observerCalls = [lastAttemptMsg (tr opts.maxRetries)]) := by
  have hgo := sendGo_retry_all tr h opts.maxRetries 0 none
  simp only [Nat.zero_add] at hgo
  simp [Synquer.send, hd, List.isEmpty_iff, hne, hgo]

/-- CLAIM C3 witness: maxRetries 3, a constant 500 transport, one event:
4 attempts, failure message of the last 500 reported. -/
theorem send_exhausts_all_retries_witness :
    opts0.disabled = false ∧ ([ev0] ≠ ([] : List IngestEvent))
    ∧ (∀ i, retryableResp (tr500 i) = true)
    ∧ (Synquer.send opts0 tr500 [ev0]).attempts = 3 + 1
    ∧ (Synquer.send opts0 tr500 [ev0]).result = Except.error "Synquer API error 500" := by
  refine ⟨rfl, by simp, fun _ => rfl, ?_, ?_⟩
  · exact (send_exhausts_all_retries opts0 tr500 [ev0] rfl (by simp) (fun _ => rfl)).1
  · exact (send_exhausts_all_retries opts0 tr500 [ev0] rfl (by simp) (fun _ => rfl)).2.1

theorem send_terminal_first (opts : SynquerOptions) (tr : Transport)
    (events : List IngestEvent) (s : Nat) (ef : Option String)
    (hs : s = 400 ∨ s = 401) (h0 : tr 0 = HttpResp.resp s ef)
    (hd : opts.disabled = false) (hne : events ≠ []) :
    Synquer.send opts tr events
      = ⟨1, if opts.onErrorSet then [terminalErrorMsg s ef] else [],
          Except.error (terminalErrorMsg s ef)⟩ := by
  have hnotok : ¬((200 ≤ s ∧ s < 300) ∨ s = 207) := by
    rcases hs with h | h <;> omega
  simp [Synquer.send, hd, List.isEmpty_iff, hne, sendGo, h0, hnotok, hs]

/-- CLAIM C4: a 400 or 401 response on the first attempt short-circuits the
retry loop: exactly one attempt is made for every maxRetries value, and the
failure message surfaces the error field of the response body when present. -/
theorem send_terminal_single_attempt (opts : SynquerOptions) (tr : Transport)
    (events : List IngestEvent) (s : Nat) (ef : Option String)
    (hs : s = 400 ∨ s = 401) (h0 : tr 0 = HttpResp.resp s ef)
    (hd : opts.disabled = false) (hne : events ≠ []) :
    (Synquer.send opts tr events).attempts = 1
    ∧ (Synquer.send opts tr events).result = Except.error (terminalErrorMsg s ef)
    ∧ (∀ e, ef = some e →
        (Synquer.send opts tr events).result
          = Except.error ("Synquer API error " ++ toString s ++ ": " ++ e)) := by
  rw [send_terminal_first opts tr events s ef hs h0 hd hne]
  refine ⟨rfl, rfl, ?_⟩
  intro e he
  simp [terminalErrorMsg, he]

/-- CLAIM C4 witness: maxRetries 3 and a 400 response carrying an error
body: one single attempt, error text surfaced. -/
theorem send_terminal_single_attempt_witness :
    (tr400 0 = HttpResp.resp 400 (some "bad request"))
    ∧ opts0.disabled = false ∧ ([ev0] ≠ ([] : List IngestEvent))
    ∧ (Synquer.send opts0 tr400 [ev0]).attempts = 1
    ∧ (Synquer.send opts0 tr400 [ev0]).result
        = Except.error "Synquer API error 400: bad request" := by
  refine ⟨rfl, rfl, by simp, ?_, ?_⟩
  · exact (send_terminal_single_attempt opts0 tr400 [ev0] 400 (some "bad request")
      (Or.inl rfl) rfl rfl (by simp)).1
  · exact (send_terminal_single_attempt opts0 tr400 [ev0] 400 (some "bad request")
      (Or.inl rfl) rfl rfl (by simp)).2.2 "bad request" rfl

/-! ## Flush, batch, shutdown theorems -/

theorem send_first_ok (opts : SynquerOptions) (tr : Transport)
    (events : List IngestEvent) (s : Nat) (ef : Option String)
    (hs : (200 ≤ s ∧ s < 300) ∨ s = 207) (h0 : tr 0 = HttpResp.resp s ef)
    (hd : opts.disabled = false) (hne : events ≠ []) :
    Synquer.send opts tr events = ⟨1, [], Except.ok ()⟩ := by
  simp [Synquer.send, hd, List.isEmpty_iff, hne, sendGo, h0, hs]

theorem ensureFlushTimer_buffer (st : SynquerState) :
    (Synquer.ensureFlushTimer st).buffer = st.buffer := by
  unfold Synquer.ensureFlushTimer
  split <;> rfl

/-- CLAIM C1: in batch mode, when the delivery of a flush fails, the
detached batch is prepended back onto the buffer in its original order,
ahead of whatever was appended while the send was in flight; a subsequent
flush whose delivery succeeds then delivers that whole buffer — in
particular, with no concurrent appends, exactly the events that failed,
with no loss and no duplication. -/
theorem flush_requeues_failed_batch (opts : SynquerOptions) (tr₁ tr₂ : Transport)
    (during : List IngestEvent) (st : SynquerState) (e : String)
    (hg : st.flushing = false) (hne : st.buffer ≠ [])
    (hfail : (Synquer.send opts tr₁ st.buffer).result = Except.error e)
    (hok : (Synquer.send opts tr₂ (st.buffer ++ during)).result = Except.ok ()) :
    Synquer.flush opts tr₁ during st
      = Except.ok ({ st with buffer := st.buffer ++ during, flushing := false }, [],
          (Synquer.send opts tr₁ st.buffer).attempts)
    ∧ Synquer.flush opts tr₂ [] { st with buffer := st.buffer ++ during, flushing := false }
      = Except.ok ({ st with buffer := [], flushing := false }, st.buffer ++ during,
          (Synquer.send opts tr₂ (st.buffer ++ during)).attempts) := by
  constructor
  · simp [Synquer.flush, List.isEmpty_iff, hne, hg, hfail]
  · have hne₂ : st.buffer ++ during ≠ [] := by
      intro hcontra
      exact hne (List.append_eq_nil.mp hcontra).1
    simp [Synquer.flush, List.isEmpty_iff, hne₂, hok]

/-- CLAIM C1 witness: one buffered event, a constant 500 transport failing
the first flush while one event is appended in flight, then a succeeding
transport delivering the requeued buffer. -/
theorem flush_requeues_failed_batch_witness :
    st0.flushing = false ∧ st0.buffer ≠ []
    ∧ (Synquer.send opts0 tr500 st0.buffer).result = Except.error "Synquer API error 500"
    ∧ (Synquer.send opts0 trOK (st0.buffer ++ [ev1])).result = Except.ok ()
    ∧ Synquer.flush opts0 tr500 [ev1] st0
        = Except.ok ({ st0 with buffer := st0.buffer ++ [ev1], flushing := false }, [],
            (Synquer.send opts0 tr500 st0.buffer).attempts)
    ∧ Synquer.flush opts0 trOK [] { st0 with buffer := st0.buffer ++ [ev1], flushing := false }
        = Except.ok ({ st0 with buffer := [], flushing := false }, st0.buffer ++ [ev1],
            (Synquer.send opts0 trOK (st0.buffer ++ [ev1])).attempts) := by
  have h := flush_requeues_failed_batch opts0 tr500 trOK [ev1] st0
    "Synquer API error 500" rfl (by simp [st0]) rfl rfl
  exact ⟨rfl, by simp [st0], rfl, rfl, h.1, h.2⟩

/-- CLAIM C2 counterexample: a 400 terminal delivery failure inside a batch
flush does NOT discard the failed events — the flush catch restores them to
the buffer, so they are kept for a later delivery attempt, contradicting
the claim that terminal failures discard the events in batch mode too. -/
theorem terminal_failure_not_discarded_in_batch :
    (Synquer.send opts0 tr400 st0.buffer).result
      = Except.error "Synquer API error 400: bad request"
    ∧ Synquer.flush opts0 tr400 [] st0
        = Except.ok ({ st0 with buffer := [ev0], flushing := false }, [], 1)
    ∧ ({ st0 with buffer := [ev0], flushing := false } : SynquerState).buffer = st0.buffer := by
  exact ⟨rfl, rfl, rfl⟩

/-- CLAIM C2 amended: a delivery attempt failing with 400/401 is never
retried within the send call (exactly 1 attempt) and is reported via the
failure-observer callback; in per-job dispatch the events are then
discarded (the failure is swallowed and nothing retains the events), while
in batch dispatch the flush restores the events to the buffer for a later
delivery attempt. -/
theorem terminal_failure_reported_then_dropped_or_requeued
    (opts : SynquerOptions) (tr : Transport) (events : List IngestEvent)
    (s : Nat) (ef : Option String) (st : SynquerState)
    (hs : s = 400 ∨ s = 401) (h0 : tr 0 = HttpResp.resp s ef)
    (hd : opts.disabled = false) (hne : events ≠ [])
    (ho : opts.onErrorSet = true)
    (hg : st.flushing = false) (hb : st.buffer = events) :
    (Synquer.send opts tr events).attempts = 1
    ∧ (Synquer.send opts tr events).observerCalls = [terminalErrorMsg s ef]
    ∧ Synquer.perJobSendFn opts tr events = ([terminalErrorMsg s ef], Except.ok ())
    ∧ Synquer.flush opts tr [] st
        = Except.ok ({ st with buffer := events, flushing := false }, [], 1) := by
  have hsend := send_terminal_first opts tr events s ef hs h0 hd hne
  refine ⟨by rw [hsend], by rw [hsend]; simp [ho], ?_, ?_⟩
  · simp [Synquer.perJobSendFn, hsend, ho]
  · have hne' : st.buffer ≠ [] := by rw [hb]; exact hne
    simp [Synquer.flush, List.isEmpty_iff, hne', hg, hb, hsend, hne]

/-- CLAIM C2 amended witness: 400 with an error body, one buffered event. -/
theorem terminal_failure_reported_then_dropped_or_requeued_witness :
    (tr400 0 = HttpResp.resp 400 (some "bad request"))
    ∧ opts0.onErrorSet = true ∧ st0.buffer = [ev0]
    ∧ (Synquer.send opts0 tr400 [ev0]).attempts = 1
    ∧ Synquer.perJobSendFn opts0 tr400 [ev0]
        = (["Synquer API error 400: bad request"], Except.ok ())
    ∧ Synquer.flush opts0 tr400 [] st0
        = Except.ok ({ st0 with buffer := [ev0], flushing := false }, [], 1) := by
  have h := terminal_failure_reported_then_dropped_or_requeued opts0 tr400 [ev0]
    400 (some "bad request") st0 (Or.inl rfl) rfl rfl (by simp) rfl rfl rfl
  exact ⟨rfl, rfl, rfl, h.1, h.2.2.1, h.2.2.2⟩

/-- CLAIM C8: shutdown is idempotent. A first shutdown on a live client
with a non-empty buffer cancels the timer, marks shutdown, and performs one
final flush; with a transport succeeding on its first attempt this is
exactly one network delivery attempt covering the whole buffered content,
and a second shutdown call is a no-op with zero further attempts, for any
transport. -/
theorem shutdown_idempotent (opts : SynquerOptions) (tr : Transport) (st : SynquerState)
    (s : Nat) (ef : Option String)
    (hsc : st.shutdownCalled = false) (hg : st.flushing = false) (hne : st.buffer ≠ [])
    (hd : opts.disabled = false)
    (hs : (200 ≤ s ∧ s < 300) ∨ s = 207) (h0 : tr 0 = HttpResp.resp s ef) :
    Synquer.shutdown opts tr [] st
      = Except.ok ({ st with buffer := [], flushing := false, flushTimerActive := false, shutdownCalled := true }, st.buffer, 1)
    ∧ (∀ tr₂ during₂, Synquer.shutdown opts tr₂ during₂
        { st with buffer := [], flushing := false, flushTimerActive := false, shutdownCalled := true }
        = Except.ok ({ st with buffer := [], flushing := false, flushTimerActive := false, shutdownCalled := true }, [], 0)) := by
  constructor
  · have hlen : 0 < st.buffer.length := List.length_pos.mpr hne
    have hsend := send_first_ok opts tr st.buffer s ef hs h0 hd hne
    simp [Synquer.shutdown, hsc, hlen, Synquer.flush, List.isEmpty_iff, hne, hg, hsend]
  · intro tr₂ during₂
    simp [Synquer.shutdown]

/-- CLAIM C8 witness: one buffered event, a constant 200 transport:
first shutdown delivers it in 1 attempt, second shutdown is a no-op. -/
theorem shutdown_idempotent_witness :
    st0.shutdownCalled = false ∧ st0.flushing = false ∧ st0.buffer ≠ []
    ∧ (trOK 0 = HttpResp.resp 200 none)
    ∧ Synquer.shutdown opts0 trOK [] st0
        = Except.ok ({ st0 with buffer := [], flushing := false, flushTimerActive := false, shutdownCalled := true }, st0.buffer, 1)
    ∧ Synquer.shutdown opts0 tr500 [ev1]
        { st0 with buffer := [], flushing := false, flushTimerActive := false, shutdownCalled := true }
        = Except.ok ({ st0 with buffer := [], flushing := false, flushTimerActive := false, shutdownCalled := true }, [], 0) := by
  have h := shutdown_idempotent opts0 trOK st0 200 none rfl rfl (by simp [st0])
    rfl (Or.inl (by omega)) rfl
  exact ⟨rfl, rfl, by simp [st0], rfl, h.1, h.2 tr500 [ev1]⟩

theorem flush_eq (opts : SynquerOptions) (tr : Transport)
    (during : List IngestEvent) (st : SynquerState) :
    Synquer.flush opts tr during st =
      if st.buffer.isEmpty ∨ st.flushing then Except.ok (st, [], 0)
      else
        match (Synquer.send opts tr st.buffer).result with
        | Except.ok _ =>
          Except.ok ({ st with buffer := during, flushing := false }, st.buffer,
            (Synquer.send opts tr st.buffer).attempts)
        | Except.error _ =>
          Except.ok ({ st with buffer := st.buffer ++ during, flushing := false }, [],
            (Synquer.send opts tr st.buffer).attempts) := rfl

theorem batchSendFn_eq (opts : SynquerOptions) (tr : Transport)
    (during : List IngestEvent) (st : SynquerState) (events : List IngestEvent) :
    Synquer.batchSendFn opts tr during st events =
      if opts.batchSize ≤ (Synquer.ensureFlushTimer { st with buffer := st.buffer ++ events }).buffer.length
      then Synquer.flush opts tr during (Synquer.ensureFlushTimer { st with buffer := st.buffer ++ events })
      else Except.ok (Synquer.ensureFlushTimer { st with buffer := st.buffer ++ events }, [], 0) := rfl

theorem batchDone_eq (opts : SynquerOptions) (tr : Transport) (during : List IngestEvent)
    (st : SynquerState) (j : JobState) (result : Option JVal) (now : Nat) :
    (batchDone opts tr during st j result now).2 =
      match (Job.done j result now).2 with
      | some evs => Synquer.batchSendFn opts tr during st evs
      | none => Except.ok (st, [], 0) := by
  cases h : (Job.done j result now).2 with
  | some evs => simp [batchDone, h]
  | none => simp [batchDone, h]

/-- CLAIM C10 (implicit): flush never propagates an exception: every
delivery error inside flush is caught (the failed batch is restored and the
in-flight guard cleared), so in batch mode a manual flush and the flush
reached from a Job terminal call always return normally; the last conjunct
states the restore-and-clear behaviour on delivery failure. -/
theorem flush_never_throws (opts : SynquerOptions) (tr : Transport)
    (during : List IngestEvent) (st : SynquerState) (events : List IngestEvent)
    (j : JobState) (result : Option JVal) (now : Nat) :
    (∃ res, Synquer.flush opts tr during st = Except.ok res)
    ∧ (∃ res, Synquer.batchSendFn opts tr during st events = Except.ok res)
    ∧ (∃ res, (batchDone opts tr during st j result now).2 = Except.ok res)
    ∧ (st.flushing = false → st.buffer ≠ [] →
        ∀ e, (Synquer.send opts tr st.buffer).result = Except.error e →
          Synquer.flush opts tr during st
            = Except.ok ({ st with buffer := st.buffer ++ during, flushing := false }, [],
                (Synquer.send opts tr st.buffer).attempts)) := by
  have hflush : ∀ st' : SynquerState, ∃ res, Synquer.flush opts tr during st' = Except.ok res := by
    intro st'
    rw [flush_eq]
    split
    · exact ⟨_, rfl⟩
    · split
      · exact ⟨_, rfl⟩
      · exact ⟨_, rfl⟩
  have hbatch : ∀ evs, ∃ res, Synquer.batchSendFn opts tr during st evs = Except.ok res := by
    intro evs
    rw [batchSendFn_eq]
    split
    · exact hflush _
    · exact ⟨_, rfl⟩
  refine ⟨hflush st, hbatch events, ?_, ?_⟩
  · rw [batchDone_eq]
    cases hdone : (Job.done j result now).2 with
    | some evs => exact hbatch evs
    | none => exact ⟨_, rfl⟩
  · intro hg hne e hfail
    simp [Synquer.flush, List.isEmpty_iff, hne, hg, hfail]

/-- CLAIM C10 witness: a delivery failure inside flush at a concrete state
returns normally with the batch restored. -/
theorem flush_never_throws_witness :
    st0.flushing = false ∧ st0.buffer ≠ []
    ∧ (Synquer.send opts0 tr500 st0.buffer).result = Except.error "Synquer API error 500"
    ∧ Synquer.flush opts0 tr500 [] st0
        = Except.ok ({ st0 with buffer := st0.buffer ++ [], flushing := false }, [],
            (Synquer.send opts0 tr500 st0.buffer).attempts) := by
  refine ⟨rfl, by simp [st0], rfl, ?_⟩
  exact (flush_never_throws opts0 tr500 [] st0 [] jOpen none 7).2.2.2 rfl
    (by simp [st0]) "Synquer API error 500" rfl

/-- CLAIM C7: in batch mode a job completion appends the job events to the
global buffer in order (arming the flush timer), and triggers an immediate
awaited flush exactly when the buffer size after the append reaches the
configured batch size. The closed conjuncts instantiate the example from
the specification: with batchSize 3, a first 2-event job does not trigger a
flush, and a second 2-event job completion (total 4) does, delivering all
4 events in order. -/
theorem batch_autoflush_threshold (opts : SynquerOptions) (tr : Transport)
    (during : List IngestEvent) (st : SynquerState) (events : List IngestEvent) :
    (Synquer.batchSendFn opts tr during st events =
      if opts.batchSize ≤ st.buffer.length + events.length then
        Synquer.flush opts tr during (Synquer.ensureFlushTimer { st with buffer := st.buffer ++ events })
      else Except.ok (Synquer.ensureFlushTimer { st with buffer := st.buffer ++ events }, [], 0))
    ∧ Synquer.batchSendFn opts3 trOK [] stEmpty [ev0, ev1]
        = Except.ok ({ buffer := [ev0, ev1], flushing := false, flushTimerActive := true, shutdownCalled := false }, [], 0)
    ∧ Synquer.batchSendFn opts3 trOK []
        { buffer := [ev0, ev1], flushing := false, flushTimerActive := true, shutdownCalled := false } [ev2, ev3]
        = Except.ok ({ buffer := [], flushing := false, flushTimerActive := true, shutdownCalled := false }, [ev0, ev1, ev2, ev3], 1) := by
  refine ⟨?_, rfl, rfl⟩
  rw [batchSendFn_eq,
    show (Synquer.ensureFlushTimer { st with buffer := st.buffer ++ events }).buffer.length
      = st.buffer.length + events.length from by rw [ensureFlushTimer_buffer]; simp]

/-! ## Job state machine theorems -/

theorem runOp_of_completed (op : JobOp) {j : JobState} (h : j.completed = true) :
    runOp j op = (j, none) := by
  cases op <;>
    simp [runOp, Job.event, Job.done, Job.failed, Job.skip, Job.review, h]

theorem runOps_of_completed (ops : List JobOp) {j : JobState} (h : j.completed = true) :
    runOps j ops = (j, []) := by
  induction ops with
  | nil => rfl
  | cons op rest ih => simp [runOps, runOp_of_completed op h, ih]

theorem countTerm_append (l₁ l₂ : List IngestEvent) :
    countTerm (l₁ ++ l₂) = countTerm l₁ + countTerm l₂ := by
  simp [countTerm, List.countP_append]

theorem countTerm_nonterm_singleton (ev : IngestEvent)
    (h : ev.type = EventType.started ∨ ev.type = EventType.event) :
    countTerm [ev] = 0 := by
  rcases h with h | h <;> simp [countTerm, List.countP_cons, h]

theorem countTerm_term_singleton (ev : IngestEvent)
    (h : ev.type = EventType.done ∨ ev.type = EventType.failed
      ∨ ev.type = EventType.skipped ∨ ev.type = EventType.review) :
    countTerm [ev] = 1 := by
  rcases h with h | h | h | h <;> simp [countTerm, List.countP_cons, h]

theorem jobEvent_events {j : JobState} (arg : EventArg) (now : Nat)
    (hc : j.completed = false) :
    (Job.event j arg now).completed = false
    ∧ countTerm (Job.event j arg now).events = countTerm j.events := by
  refine ⟨by simp [Job.event, hc], ?_⟩
  simp only [Job.event, hc, Bool.false_eq_true, if_false]
  rw [countTerm_append, countTerm_nonterm_singleton _ (Or.inr rfl)]
  omega

theorem runOps_single_send : ∀ (ops : List JobOp) (j : JobState),
    j.completed = false → countTerm j.events = 0 →
    countTerm (runOps j ops).1.events ≤ 1
    ∧ (runOps j ops).2.length = (if (runOps j ops).1.completed = true then 1 else 0)
    ∧ ((runOps j ops).1.completed = true →
        (runOps j ops).2 = [(runOps j ops).1.events]) := by
  intro ops
  induction ops with
  | nil =>
    intro j hc ht
    refine ⟨?_, ?_, ?_⟩ <;> simp [runOps, hc, ht]
  | cons op rest ih =>
    intro j hc ht
    cases op with
    | logEvent arg now =>
      obtain ⟨hev, hct⟩ := jobEvent_events arg now (j := j) hc
      have h := ih (Job.event j arg now) hev (by rw [hct, ht])
      simpa [runOps, runOp] using h
    | done r now =>
      simp only [runOps, runOp, Job.done, hc, Bool.false_eq_true, if_false]
      rw [runOps_of_completed rest rfl]
      refine ⟨?_, by simp, by simp⟩
      simp only
      rw [countTerm_append, countTerm_term_singleton _ (Or.inl rfl)]
      omega
    | failed e now =>
      simp only [runOps, runOp, Job.failed, hc, Bool.false_eq_true, if_false]
      rw [runOps_of_completed rest rfl]
      refine ⟨?_, by simp, by simp⟩
      simp only
      rw [countTerm_append, countTerm_term_singleton _ (Or.inr (Or.inl rfl))]
      omega
    | skip reason now =>
      simp only [runOps, runOp, Job.skip, hc, Bool.false_eq_true, if_false]
      rw [runOps_of_completed rest rfl]
      refine ⟨?_, by simp, by simp⟩
      simp only
      rw [countTerm_append, countTerm_term_singleton _ (Or.inr (Or.inr (Or.inl rfl)))]
      omega
    | review reason now =>
      simp only [runOps, runOp, Job.review, hc, Bool.false_eq_true, if_false]
      rw [runOps_of_completed rest rfl]
      refine ⟨?_, by simp, by simp⟩
      simp only
      rw [countTerm_append, countTerm_term_singleton _ (Or.inr (Or.inr (Or.inr rfl)))]
      omega

/-- CLAIM C5: over every operation sequence on a freshly created Job, at
most one terminal event is ever appended; the send callback fires exactly
once when the job completed and never otherwise; the single delivery
carries the full accumulated event sequence; and once completed, every
further operation sequence is a silent no-op (state unchanged, no further
send-callback invocation). -/
theorem job_single_terminal (id : String) (o : JobOptions) (t₀ : Nat)
    (ops more : List JobOp) :
    countTerm (runOps (Job.mk id o t₀) ops).1.events ≤ 1
    ∧ (runOps (Job.mk id o t₀) ops).2.length
        = (if (runOps (Job.mk id o t₀) ops).1.completed = true then 1 else 0)
    ∧ ((runOps (Job.mk id o t₀) ops).1.completed = true →
        (runOps (Job.mk id o t₀) ops).2 = [(runOps (Job.mk id o t₀) ops).1.events]
        ∧ runOps (runOps (Job.mk id o t₀) ops).1 more
            = ((runOps (Job.mk id o t₀) ops).1, [])) := by
  have ht : countTerm (Job.mk id o t₀).events = 0 :=
    countTerm_nonterm_singleton _ (Or.inl rfl)
  have h := runOps_single_send ops (Job.mk id o t₀) rfl ht
  exact ⟨h.1, h.2.1, fun hcomp => ⟨h.2.2 hcomp, runOps_of_completed more hcomp⟩⟩

theorem perJobSendFn_eq (opts : SynquerOptions) (tr : Transport)
    (events : List IngestEvent) :
    Synquer.perJobSendFn opts tr events
      = ((Synquer.send opts tr events).observerCalls, Except.ok ()) := by
  unfold Synquer.perJobSendFn
  cases h : (Synquer.send opts tr events).result <;> simp [h]

theorem perJobDone_eq (opts : SynquerOptions) (tr : Transport) (j : JobState)
    (result : Option JVal) (now : Nat) :
    perJobDone opts tr j result now
      = match (Job.done j result now).2 with
        | some evs => ((Job.done j result now).1,
            (Synquer.perJobSendFn opts tr evs).1, (Synquer.perJobSendFn opts tr evs).2)
        | none => ((Job.done j result now).1, [], Except.ok ()) := by
  cases h : (Job.done j result now).2 <;> simp [perJobDone, h]

/-- CLAIM C6: in per-job mode a terminal call never raises: whatever the
transport does, the awaited outcome of the terminal call is normal
completion, and the observer invocations of the underlying send (which fire
before the failure is swallowed) are passed through unchanged. -/
theorem perjob_terminal_never_raises (opts : SynquerOptions) (tr : Transport)
    (j : JobState) (result : Option JVal) (now : Nat) :
    (perJobDone opts tr j result now).2.2 = Except.ok ()
    ∧ (∀ evs, (Job.done j result now).2 = some evs →
        (perJobDone opts tr j result now).2.1
          = (Synquer.send opts tr evs).observerCalls) := by
  rw [perJobDone_eq]
  cases hdone : (Job.done j result now).2 with
  | some evs =>
    refine ⟨by simp [perJobSendFn_eq], ?_⟩
    intro evs₂ heq
    rw [Option.some.injEq] at heq
    subst heq
    simp [perJobSendFn_eq]
  | none => simp

/-- CLAIM C6 witness: an open job completed against an always-failing 500
transport: the awaited outcome is normal, and the observer fired with the
final failure before it was swallowed. -/
theorem perjob_terminal_never_raises_witness :
    (perJobDone opts0 tr500 jOpen none 7).2.2 = Except.ok ()
    ∧ (perJobDone opts0 tr500 jOpen none 7).2.1
        = (Synquer.send opts0 tr500 (Job.done jOpen none 7).1.events).observerCalls
    ∧ (Synquer.send opts0 tr500 (Job.done jOpen none 7).1.events).observerCalls
        = ["Synquer API error 500"] := by
  refine ⟨(perjob_terminal_never_raises opts0 tr500 jOpen none 7).1,
    (perjob_terminal_never_raises opts0 tr500 jOpen none 7).2 _ rfl, rfl⟩

theorem head?_append_left {α : Type} (l₁ l₂ : List α) (h : l₁ ≠ []) :
    (l₁ ++ l₂).head? = l₁.head? := by
  cases l₁ with
  | nil => exact absurd rfl h
  | cons a t => rfl

theorem lastTs_append (l : List IngestEvent) (ev : IngestEvent) :
    lastTs (l ++ [ev]) = ev.timestamp := by
  simp [lastTs, List.getLast?_concat]

theorem chain_ts_append (l : List IngestEvent) (ev : IngestEvent)
    (hch : List.Chain' (fun a b => a.timestamp ≤ b.timestamp) l)
    (hle : lastTs l ≤ ev.timestamp) :
    List.Chain' (fun a b => a.timestamp ≤ b.timestamp) (l ++ [ev]) := by
  rw [List.chain'_append]
  refine ⟨hch, List.chain'_singleton _, ?_⟩
  intro x hx y hy
  rw [Option.mem_def] at hx hy
  have hy' : y = ev := by
    cases hy
    rfl
  subst hy'
  simp only [lastTs, hx] at hle
  exact hle

theorem runOp_ts_inv (j : JobState) (op : JobOp) (s₀ : IngestEvent)
    (hh : j.events.head? = some s₀)
    (hch : List.Chain' (fun a b => a.timestamp ≤ b.timestamp) j.events)
    (hlast : lastTs j.events ≤ op.now) :
    (runOp j op).1.events.head? = some s₀
    ∧ List.Chain' (fun a b => a.timestamp ≤ b.timestamp) (runOp j op).1.events
    ∧ lastTs (runOp j op).1.events ≤ op.now := by
  have hne : j.events ≠ [] := by
    intro hcontra
    rw [hcontra] at hh
    cases hh
  cases hcomp : j.completed with
  | true =>
    rw [runOp_of_completed op hcomp]
    exact ⟨hh, hch, hlast⟩
  | false =>
    cases op with
    | logEvent arg now =>
      simp only [runOp, Job.event, hcomp, Bool.false_eq_true, if_false]
      exact ⟨by rw [head?_append_left _ _ hne]; exact hh,
        chain_ts_append _ _ hch hlast, by rw [lastTs_append]; exact Nat.le_refl now⟩
    | done r now =>
      simp only [runOp, Job.done, hcomp, Bool.false_eq_true, if_false]
      exact ⟨by rw [head?_append_left _ _ hne]; exact hh,
        chain_ts_append _ _ hch hlast, by rw [lastTs_append]; exact Nat.le_refl now⟩
    | failed e now =>
      simp only [runOp, Job.failed, hcomp, Bool.false_eq_true, if_false]
      exact ⟨by rw [head?_append_left _ _ hne]; exact hh,
        chain_ts_append _ _ hch hlast, by rw [lastTs_append]; exact Nat.le_refl now⟩
    | skip reason now =>
      simp only [runOp, Job.skip, hcomp, Bool.false_eq_true, if_false]
      exact ⟨by rw [head?_append_left _ _ hne]; exact hh,
        chain_ts_append _ _ hch hlast, by rw [lastTs_append]; exact Nat.le_refl now⟩
    | review reason now =>
      simp only [runOp, Job.review, hcomp, Bool.false_eq_true, if_false]
      exact ⟨by rw [head?_append_left _ _ hne]; exact hh,
        chain_ts_append _ _ hch hlast, by rw [lastTs_append]; exact Nat.le_refl now⟩

theorem runOps_ts_inv : ∀ (ops : List JobOp) (j : JobState) (t : Nat) (s₀ : IngestEvent),
    j.events.head? = some s₀ →
    List.Chain' (fun a b => a.timestamp ≤ b.timestamp) j.events →
    lastTs j.events ≤ t →
    nowsMono t ops = true →
    (runOps j ops).1.events.head? = some s₀
    ∧ List.Chain' (fun a b => a.timestamp ≤ b.timestamp) (runOps j ops).1.events := by
  intro ops
  induction ops with
  | nil =>
    intro j t s₀ hh hch _ _
    exact ⟨hh, hch⟩
  | cons op rest ih =>
    intro j t s₀ hh hch hlast hmono
    rw [nowsMono, Bool.and_eq_true, decide_eq_true_eq] at hmono
    obtain ⟨hle, hrest⟩ := hmono
    have h₁ := runOp_ts_inv j op s₀ hh hch (le_trans hlast hle)
    have h₂ := ih (runOp j op).1 op.now s₀ h₁.1 h₁.2.1 h₁.2.2 hrest
    simpa [runOps] using h₂

/-- CLAIM C9: for every operation sequence on a freshly created Job, under
a monotone wall clock, the accumulated event sequence is non-empty, its
first element is exactly the started event built synchronously at
construction, and event timestamps are non-decreasing along the sequence. -/
theorem job_started_first_ts_monotone (id : String) (o : JobOptions) (t₀ : Nat)
    (ops : List JobOp) (h : nowsMono t₀ ops = true) :
    (runOps (Job.mk id o t₀) ops).1.events ≠ []
    ∧ (runOps (Job.mk id o t₀) ops).1.events.head? = some (startedEvent id o t₀)
    ∧ List.Chain' (fun a b => a.timestamp ≤ b.timestamp)
        (runOps (Job.mk id o t₀) ops).1.events := by
  have hinv := runOps_ts_inv ops (Job.mk id o t₀) t₀ (startedEvent id o t₀)
    rfl (List.chain'_singleton _) (by simp [Job.mk, lastTs, startedEvent]) h
  refine ⟨?_, hinv.1, hinv.2⟩
  intro hcontra
  rw [hcontra] at hinv
  cases hinv.1

/-- CLAIM C9 witness: construction at time 3, a progress event at 5, done
at 7: the clock is monotone and the conclusion holds at this instance. -/
theorem job_started_first_ts_monotone_witness :
    nowsMono 3 [JobOp.logEvent (EventArg.msg "step") 5, JobOp.done none 7] = true
    ∧ (runOps (Job.mk "jobA" jobOpts0 3)
        [JobOp.logEvent (EventArg.msg "step") 5, JobOp.done none 7]).1.events.head?
        = some (startedEvent "jobA" jobOpts0 3)
    ∧ List.Chain' (fun a b => a.timestamp ≤ b.timestamp)
        (runOps (Job.mk "jobA" jobOpts0 3)
          [JobOp.logEvent (EventArg.msg "step") 5, JobOp.done none 7]).1.events := by
  refine ⟨rfl, ?_, ?_⟩
  · exact (job_started_first_ts_monotone "jobA" jobOpts0 3
      [JobOp.logEvent (EventArg.msg "step") 5, JobOp.done none 7] rfl).2.1
  · exact (job_started_first_ts_monotone "jobA" jobOpts0 3
      [JobOp.logEvent (EventArg.msg "step") 5, JobOp.done none 7] rfl).2.2

/-- CLAIM C5 witness: a single done call on a fresh job: one terminal
event, one delivery carrying the full sequence, and a later review call is
a silent no-op. -/
theorem job_single_terminal_witness :
    countTerm (runOps (Job.mk "jobA" jobOpts0 3) [JobOp.done none 7]).1.events ≤ 1
    ∧ (runOps (Job.mk "jobA" jobOpts0 3) [JobOp.done none 7]).2
        = [(runOps (Job.mk "jobA" jobOpts0 3) [JobOp.done none 7]).1.events]
    ∧ runOps (runOps (Job.mk "jobA" jobOpts0 3) [JobOp.done none 7]).1 [JobOp.review "late" 9]
        = ((runOps (Job.mk "jobA" jobOpts0 3) [JobOp.done none 7]).1, []) := by
  have h := job_single_terminal "jobA" jobOpts0 3 [JobOp.done none 7] [JobOp.review "late" 9]
  exact ⟨h.1, (h.2.2 rfl).1, (h.2.2 rfl).2⟩

/-- CLAIM C7 witness: the first closed instance of the threshold example,
obtained by applying the theorem at the concrete inputs. -/
theorem batch_autoflush_threshold_witness :
    Synquer.batchSendFn opts3 trOK [] stEmpty [ev0, ev1]
      = Except.ok ({ buffer := [ev0, ev1], flushing := false, flushTimerActive := true, shutdownCalled := false }, [], 0)
    ∧ Synquer.batchSendFn opts3 trOK []
        { buffer := [ev0, ev1], flushing := false, flushTimerActive := true, shutdownCalled := false } [ev2, ev3]
        = Except.ok ({ buffer := [], flushing := false, flushTimerActive := true, shutdownCalled := false }, [ev0, ev1, ev2, ev3], 1) := by
  exact ⟨(batch_autoflush_threshold opts3 trOK [] stEmpty [ev0, ev1]).2.1,
    (batch_autoflush_threshold opts3 trOK [] stEmpty [ev0, ev1]).2.2⟩
